import Mathlib

/-!
Shallow embedding of the Wire Vision AI Streamlit client (src/main.py).

The client holds session state (a job list, an optional selected job-details
record, and per-job cached download links), issues HTTP calls to a backend,
and renders a job table plus an instruction viewer.  External calls are
modelled by passing their outcome (`Except` for a caught `RequestException`
versus a parsed response) as an argument; JSON objects reached with dynamic
keys are association lists of strings, and fixed-shape records are
structures of `Option String` fields (a missing key is `none`, as read by
Python's `dict.get`).
-/

/-- Python `dict.get(k)` on a string-to-string JSON object: the value at the
first matching key, or `none` when the key is absent. -/
def dictGet (d : List (String × String)) (k : String) : Option String :=
  (d.find? (fun p => p.1 = k)).map (fun p => p.2)

/-- Python `d[k] = v` on a string-to-string dict: replace the value of an
existing key, otherwise append the new binding. -/
def dictSet (d : List (String × String)) (k v : String) : List (String × String) :=
  match d with
  | [] => [(k, v)]
  | (k', v') :: rest => if k' = k then (k, v) :: rest else (k', v') :: dictSet rest k v

/-- Python truthiness of a string-valued `dict.get` result: `None` and the
empty string are falsy. -/
def pyFalsy : Option String → Bool
  | none => true
  | some s => s = ""

/-- Python `f"{x}"` of an optional string: `None` renders as the literal
string `None`. -/
def pyStr : Option String → String
  | none => "None"
  | some s => s

/-- One job summary as returned by `GET /jobs`; every field is read with
`dict.get` in the source, so each is optional. -/
structure Job where
  id : Option String
  originalFilename : Option String
  targetLanguage : Option String
  status : Option String
  uploadTimestamp : Option String
deriving Repr, DecidableEq

/-- The expanded record returned by `GET /jobs/{jobId}/instructions`;
`instructions` is a JSON object reached with dynamic keys
(`translatedInstructions_<lang>`), so it stays an association list
(a missing `instructions` key is the empty object, as in
`job_details.get('instructions', {})`). -/
structure JobDetails where
  jobId : Option String
  originalDrawingUrl : Option String
  targetLanguage : Option String
  instructions : List (String × String)
deriving Repr, DecidableEq

/-- The file chosen in the uploader widget. -/
structure UploadedFile where
  name : String
  type : String
deriving Repr, DecidableEq

/-- `st.session_state`: the jobs list, the selected details record, and the
`dl_<jobId>`-keyed cache of resolved download links. -/
structure SessionState where
  jobs : List Job
  selected_job_details : Option JobDetails
  dl_links : List (String × String)
deriving Repr, DecidableEq

/-- Session state right after initialization (lines 16-19 of the source). -/
def initialState : SessionState :=
  { jobs := [], selected_job_details := none, dl_links := [] }

/-- User-visible messages emitted through `st.error` / `st.warning` /
`st.success` / `st.toast`. -/
inductive UiMsg where
  | errorMsg (text : String)
  | warningMsg (text : String)
  | successMsg (text : String)
  | toastMsg (text : String)
deriving Repr, DecidableEq

/-- The network calls the client can issue. -/
inductive NetCall where
  | postCreateJob (filename contentType language : String)
  | putUpload (url : String)
  | getListJobs
  | getDetails (jobId : String)
  | getPdfLink (jobId : String)
deriving Repr, DecidableEq

/-- Sort key used by the refresh: `x.get('uploadTimestamp', '')`. -/
def pySortKey (j : Job) : String :=
  j.uploadTimestamp.getD ""

/-- The ordering `sorted(..., reverse=True)` sorts into: descending by the
`uploadTimestamp` key (missing timestamps read as `""`). -/
def jobGE (a b : Job) : Prop :=
  pySortKey b ≤ pySortKey a

instance : DecidableRel jobGE :=
  fun a b => inferInstanceAs (Decidable (pySortKey b ≤ pySortKey a))

instance : IsTotal Job jobGE :=
  ⟨fun a b => (le_total (pySortKey a) (pySortKey b)).symm⟩

instance : IsTrans Job jobGE :=
  ⟨fun _ _ _ hab hbc => le_trans hbc hab⟩

/-- `sorted(jobs, key=lambda x: x.get('uploadTimestamp', ''), reverse=True)`:
a stable sort placing larger timestamps first. -/
def pySortedDesc (l : List Job) : List Job :=
  List.insertionSort jobGE l

/-- `get_jobs_from_backend` (lines 49-60): on success the parsed body's
`jobs` list (defaulting to `[]`) is sorted newest-first and assigned to
`st.session_state.jobs`; a `RequestException` is caught and reported with
`st.error`, leaving the state untouched. -/
def get_jobs_from_backend (resp : Except String (Option (List Job)))
    (s : SessionState) : SessionState × List UiMsg :=
  match resp with
  | Except.ok body =>
      ({ s with jobs := pySortedDesc (body.getD []) },
       [UiMsg.toastMsg "Job status refreshed!"])
  | Except.error e =>
      (s, [UiMsg.errorMsg ("Error refreshing job list: " ++ e)])

/-- `get_job_details` (lines 63-73): on success the parsed record replaces
`selected_job_details`; on a caught failure an error is shown and
`selected_job_details` is reset to `None`. -/
def get_job_details (job_id : String) (resp : Except String JobDetails)
    (s : SessionState) : SessionState × List UiMsg × List NetCall :=
  match resp with
  | Except.ok d =>
      ({ s with selected_job_details := some d }, [], [NetCall.getDetails job_id])
  | Except.error e =>
      ({ s with selected_job_details := none },
       [UiMsg.errorMsg ("Error fetching job details: " ++ e)],
       [NetCall.getDetails job_id])

/-- Outcome of one run of the Start Processing button handler. -/
structure HandlerResult where
  state : SessionState
  msgs : List UiMsg
  calls : List NetCall
  uncaught : Option String
deriving Repr, DecidableEq

/-- The Start Processing button handler (lines 108-123).  `createResp` is the
outcome of `create_job_in_backend` (error = caught `RequestException`, ok =
parsed JSON object), `uploadResp` the outcome of `upload_file_to_s3`, and
`listResp` the outcome of the follow-up `get_jobs_from_backend`.  The
success message interpolates `job_info['jobId']` with a plain subscript, so
a response lacking that key raises a `KeyError` that no surrounding
`try` catches: this is recorded in `uncaught`. -/
def startProcessing (uploaded_file : Option UploadedFile) (target_language : String)
    (createResp : Except String (List (String × String)))
    (uploadResp : Except String Unit)
    (listResp : Except String (Option (List Job)))
    (s : SessionState) : HandlerResult :=
  match uploaded_file with
  | none =>
      { state := s, msgs := [UiMsg.warningMsg "Please select a file to upload."],
        calls := [], uncaught := none }
  | some f =>
    match createResp with
    | Except.error e =>
        { state := s, msgs := [UiMsg.errorMsg ("Error creating job: " ++ e)],
          calls := [NetCall.postCreateJob f.name f.type target_language],
          uncaught := none }
    | Except.ok job_info =>
      if job_info ≠ [] ∧ (dictGet job_info "uploadUrl").isSome then
        match uploadResp with
        | Except.error e =>
            { state := s,
              msgs := [UiMsg.errorMsg ("Error uploading file to S3: " ++ e)],
              calls := [NetCall.postCreateJob f.name f.type target_language,
                        NetCall.putUpload ((dictGet job_info "uploadUrl").getD "")],
              uncaught := none }
        | Except.ok _ =>
          match dictGet job_info "jobId" with
          | none =>
              { state := s, msgs := [],
                calls := [NetCall.postCreateJob f.name f.type target_language,
                          NetCall.putUpload ((dictGet job_info "uploadUrl").getD "")],
                uncaught := some "KeyError: jobId" }
          | some jid =>
              let refreshed := get_jobs_from_backend listResp s
              { state := refreshed.1,
                msgs := [UiMsg.successMsg
                           ("Job " ++ jid ++ " created. Refreshing status...")]
                        ++ refreshed.2,
                calls := [NetCall.postCreateJob f.name f.type target_language,
                          NetCall.putUpload ((dictGet job_info "uploadUrl").getD ""),
                          NetCall.getListJobs],
                uncaught := none }
      else
        { state := s, msgs := [],
          calls := [NetCall.postCreateJob f.name f.type target_language],
          uncaught := none }

/-- One rendered row of the job table (lines 149-182). -/
structure RowRender where
  idCell : String
  filenameCell : Option String
  langCell : String
  statusCell : String
  hasViewButton : Bool
  hasPdfButton : Bool
  downloadLink : Option String
deriving Repr, DecidableEq

/-- Rendering one job row: the View and PDF buttons exist only inside the
`status == "DONE"` branch; other statuses render an info/warning badge or
the raw status string; a cached `dl_<id>` link is rendered whenever the key
is in the session state, regardless of status. -/
def renderJobRow (job : Job) (dl : List (String × String)) : RowRender :=
  let idStr := pyStr job.id
  let status := job.status.getD "UNKNOWN"
  { idCell := idStr
    filenameCell := job.originalFilename
    langCell := (job.targetLanguage.getD "N/A").toUpper
    statusCell :=
      if status = "DONE" then "DONE"
      else if status = "PENDING_PDF" then "Generating PDF..."
      else if status = "PROCESSING" then "PROCESSING"
      else status
    hasViewButton := decide (status = "DONE")
    hasPdfButton := decide (status = "DONE")
    downloadLink := dictGet dl ("dl_" ++ idStr) }

/-- The PDF button handler (lines 165-170) together with
`get_pdf_download_url` (lines 76-85): on a caught failure an error is shown;
on success the body's `downloadUrl` value (possibly absent) is stored under
`dl_<jobId>` when truthy. -/
def pdfButtonHandler (job_id : String) (resp : Except String (Option String))
    (s : SessionState) : SessionState × List UiMsg × List NetCall :=
  match resp with
  | Except.error e =>
      (s, [UiMsg.errorMsg ("Error generating PDF link: " ++ e)],
       [NetCall.getPdfLink job_id])
  | Except.ok urlOpt =>
      match urlOpt with
      | none => (s, [], [NetCall.getPdfLink job_id])
      | some url =>
          if url = "" then (s, [], [NetCall.getPdfLink job_id])
          else ({ s with dl_links := dictSet s.dl_links ("dl_" ++ job_id) url },
                [], [NetCall.getPdfLink job_id])

/-- The instruction lookup the viewer performs first (lines 205-209): the
base-language entry for `en`, otherwise `translatedInstructions_<lang>`. -/
def primaryLookup (instr : List (String × String)) (lang : String) : Option String :=
  if lang = "en" then dictGet instr "englishInstructions"
  else dictGet instr ("translatedInstructions_" ++ lang)

/-- The Instruction Viewer text (lines 200-215): the primary lookup if
truthy, else `instructions_obj.get('englishInstructions', "Instructions not
available.")`. -/
def renderedInstructionText (jd : JobDetails) : String :=
  let first := primaryLookup jd.instructions (jd.targetLanguage.getD "en")
  if pyFalsy first then
    (dictGet jd.instructions "englishInstructions").getD "Instructions not available."
  else first.getD ""

/-- Modelled from the spec wording of the language-resolution rule: show the
base-language entry for the base language, otherwise the
`translatedInstructions_<lang>` entry; if the selected entry is absent or
empty fall back to `englishInstructions`; if that too is absent show the
placeholder. -/
def specResolveInstruction (instr : List (String × String)) (lang : String) : String :=
  let selected :=
    if lang = "en" then dictGet instr "englishInstructions"
    else dictGet instr ("translatedInstructions_" ++ lang)
  match selected with
  | none =>
      match dictGet instr "englishInstructions" with
      | none => "Instructions not available."
      | some e => e
  | some t =>
      if t = "" then
        match dictGet instr "englishInstructions" with
        | none => "Instructions not available."
        | some e => e
      else t

/-- Statuses the spec lists as the known server-owned enum. -/
def knownStatuses : List String :=
  ["PENDING_UPLOAD", "PROCESSING", "PENDING_PDF", "DONE", "FAILED"]

/-- Recognizer for the upload phase among issued network calls. -/
def isPutUpload : NetCall → Bool
  | NetCall.putUpload _ => true
  | _ => false

theorem dictGet_dictSet_self (d : List (String × String)) (k v : String) :
    dictGet (dictSet d k v) k = some v := by
  induction d with
  | nil => simp [dictGet, dictSet]
  | cons p rest ih =>
      obtain ⟨k', v'⟩ := p
      by_cases h : k' = k
      · simp [dictSet, h, dictGet]
      · simpa [dictSet, h, dictGet] using ih

theorem dictSet_dictSet_self (d : List (String × String)) (k v w : String) :
    dictSet (dictSet d k v) k w = dictSet d k w := by
  induction d with
  | nil => simp [dictSet]
  | cons p rest ih =>
      obtain ⟨k', v'⟩ := p
      by_cases h : k' = k
      · simp [dictSet, h]
      · simp [dictSet, h, ih]

/-- C1: the Instruction Viewer follows the language-resolution rule of the
spec (base-language entry for `en`, otherwise the translated entry, with the
absent-or-empty fallback chain), and the rendered text is non-empty whenever
the `englishInstructions` entry is not present with an empty value.  The
unconditional never-empty half of the claim is refuted by
`C1_empty_render_counterexample`. -/
theorem C1_instruction_resolution (jd : JobDetails) :
    renderedInstructionText jd
      = specResolveInstruction jd.instructions (jd.targetLanguage.getD "en") ∧
    (dictGet jd.instructions "englishInstructions" ≠ some "" →
      renderedInstructionText jd ≠ "") := by
  constructor
  · simp only [renderedInstructionText, specResolveInstruction, primaryLookup]
    cases hsel : (if (jd.targetLanguage.getD "en") = "en" then
        dictGet jd.instructions "englishInstructions"
      else dictGet jd.instructions
        ("translatedInstructions_" ++ (jd.targetLanguage.getD "en"))) with
    | none =>
        cases hE : dictGet jd.instructions "englishInstructions" <;>
          simp [pyFalsy, hsel, hE]
    | some t =>
        by_cases ht : t = ""
        · cases hE : dictGet jd.instructions "englishInstructions" <;>
            simp [pyFalsy, hsel, hE, ht]
        · simp [pyFalsy, hsel, ht]
  · intro hE
    simp only [renderedInstructionText, primaryLookup]
    cases hsel : (if (jd.targetLanguage.getD "en") = "en" then
        dictGet jd.instructions "englishInstructions"
      else dictGet jd.instructions
        ("translatedInstructions_" ++ (jd.targetLanguage.getD "en"))) with
    | none =>
        cases hE2 : dictGet jd.instructions "englishInstructions" with
        | none => simp [pyFalsy, hE2]
        | some e =>
            have : e ≠ "" := fun h => hE (by rw [hE2, h])
            simp [pyFalsy, hE2, this]
    | some t =>
        by_cases ht : t = ""
        · cases hE2 : dictGet jd.instructions "englishInstructions" with
          | none => simp [pyFalsy, ht, hE2]
          | some e =>
              have : e ≠ "" := fun h => hE (by rw [hE2, h])
              simp [pyFalsy, ht, hE2, this]
        · simp [pyFalsy, ht]

/-- C1 counterexample: a JobDetails record whose `englishInstructions` entry
is present but empty renders an empty instruction panel, refuting the
claim that the rule never produces an empty render. -/
theorem C1_empty_render_counterexample :
    renderedInstructionText
      ⟨some "j1", none, some "fr", [("englishInstructions", "")]⟩ = "" := by
  decide

/-- C1 witness: the amended theorem applied at a concrete French job whose
`englishInstructions` entry is non-empty. -/
theorem C1_instruction_resolution_witness :
    renderedInstructionText
      ⟨some "j2", none, some "fr",
        [("englishInstructions", "Turn off power."),
         ("translatedInstructions_fr", "Coupez le courant.")]⟩ ≠ "" :=
  (C1_instruction_resolution
    ⟨some "j2", none, some "fr",
      [("englishInstructions", "Turn off power."),
       ("translatedInstructions_fr", "Coupez le courant.")]⟩).2 (by decide)

/-- C2: evaluating the Start Processing handler on a job-creation success
response that carries `uploadUrl` but no `jobId` key shows the `KeyError`
raised by `job_info['jobId']` escaping uncaught, contradicting the policy
that every failure is caught and converted to a user-visible message. -/
theorem C2_keyerror_on_missing_jobid :
    (startProcessing (some ⟨"wiring.png", "image/png"⟩) "es"
        (Except.ok [("uploadUrl", "https://x/u1")]) (Except.ok ())
        (Except.ok (some [])) initialState).uncaught
      = some "KeyError: jobId" := by
  decide

/-- C3: a successful registry refresh makes the in-memory job list a
permutation of the backend list, sorted non-increasingly by the
`uploadTimestamp` key (missing timestamps read as the empty string), and the
result is independent of the previously held registry contents. -/
theorem C3_refresh_sorted_replaces (s t : SessionState) (jobs : List Job) :
    ((get_jobs_from_backend (Except.ok (some jobs)) s).1.jobs).Perm jobs ∧
    List.Sorted jobGE (get_jobs_from_backend (Except.ok (some jobs)) s).1.jobs ∧
    (get_jobs_from_backend (Except.ok (some jobs)) s).1.jobs
      = (get_jobs_from_backend (Except.ok (some jobs)) t).1.jobs := by
  refine ⟨?_, ?_, rfl⟩
  · simpa [get_jobs_from_backend, pySortedDesc] using List.perm_insertionSort jobGE jobs
  · simpa [get_jobs_from_backend, pySortedDesc] using List.sorted_insertionSort jobGE jobs

/-- C4: a failing registry refresh returns the session state unchanged and
surfaces exactly the refresh error message. -/
theorem C4_refresh_failure_preserves (s : SessionState) (e : String) :
    get_jobs_from_backend (Except.error e) s
      = (s, [UiMsg.errorMsg ("Error refreshing job list: " ++ e)]) := rfl

/-- C5: with no file selected the handler leaves the state unchanged, emits
only the local warning, issues zero network calls, and raises nothing. -/
theorem C5_no_file_rejected_locally (target_language : String)
    (createResp : Except String (List (String × String)))
    (uploadResp : Except String Unit)
    (listResp : Except String (Option (List Job))) (s : SessionState) :
    startProcessing none target_language createResp uploadResp listResp s
      = { state := s, msgs := [UiMsg.warningMsg "Please select a file to upload."],
          calls := [], uncaught := none } := rfl

/-- C6 counterexample: a creation response lacking `uploadUrl` makes the
handler skip the upload but also emit no message at all, refuting the
claim that an error is surfaced in every phase-1 failure. -/
theorem C6_silent_no_uploadurl_counterexample :
    (startProcessing (some ⟨"schematic.png", "image/png"⟩) "fr"
        (Except.ok [("jobId", "j1")]) (Except.ok ()) (Except.ok (some []))
        initialState).msgs = [] ∧
    (startProcessing (some ⟨"schematic.png", "image/png"⟩) "fr"
        (Except.ok [("jobId", "j1")]) (Except.ok ()) (Except.ok (some []))
        initialState).calls
      = [NetCall.postCreateJob "schematic.png" "image/png" "fr"] := by
  constructor <;> decide

/-- C6 amended: when job creation fails as a caught request error the handler
surfaces exactly the creation error and never issues an upload call; when
creation succeeds but the response lacks `uploadUrl`, the handler never
issues an upload call but surfaces no message at all. -/
theorem C6_phase1_failure_no_upload (f : UploadedFile) (target_language : String)
    (uploadResp : Except String Unit) (listResp : Except String (Option (List Job)))
    (s : SessionState) :
    (∀ e : String,
      (startProcessing (some f) target_language (Except.error e) uploadResp listResp s).msgs
        = [UiMsg.errorMsg ("Error creating job: " ++ e)] ∧
      ∀ c ∈ (startProcessing (some f) target_language (Except.error e)
          uploadResp listResp s).calls, isPutUpload c = false) ∧
    (∀ job_info : List (String × String), dictGet job_info "uploadUrl" = none →
      (startProcessing (some f) target_language (Except.ok job_info) uploadResp listResp s).msgs
        = [] ∧
      ∀ c ∈ (startProcessing (some f) target_language (Except.ok job_info)
          uploadResp listResp s).calls, isPutUpload c = false) := by
  constructor
  · intro e
    constructor
    · rfl
    · intro c hc
      simp only [startProcessing, List.mem_singleton] at hc
      simp [hc, isPutUpload]
  · intro job_info h
    have hcond : ¬ (job_info ≠ [] ∧ (dictGet job_info "uploadUrl").isSome) := by
      rintro ⟨-, hsome⟩
      rw [h] at hsome
      exact Bool.noConfusion hsome
    constructor
    · simp [startProcessing, hcond]
    · intro c hc
      simp only [startProcessing] at hc
      rw [if_neg hcond] at hc
      simp only [List.mem_singleton] at hc
      simp [hc, isPutUpload]

/-- C6 witness: the amended theorem applied to a concrete creation response
that lacks `uploadUrl`. -/
theorem C6_phase1_failure_no_upload_witness :
    (startProcessing (some ⟨"a.png", "image/png"⟩) "fr"
        (Except.ok [("note", "x")]) (Except.ok ()) (Except.ok none)
        initialState).msgs = [] ∧
    ∀ c ∈ (startProcessing (some ⟨"a.png", "image/png"⟩) "fr"
        (Except.ok [("note", "x")]) (Except.ok ()) (Except.ok none)
        initialState).calls, isPutUpload c = false :=
  (C6_phase1_failure_no_upload ⟨"a.png", "image/png"⟩ "fr" (Except.ok ())
    (Except.ok none) initialState).2 [("note", "x")] (by decide)

/-- C7: in every rendered job row the View button and the PDF button are
present exactly when the status field equals DONE; any other or missing
status renders neither action. -/
theorem C7_actions_iff_done (job : Job) (dl : List (String × String)) :
    (renderJobRow job dl).hasViewButton = decide (job.status = some "DONE") ∧
    (renderJobRow job dl).hasPdfButton = decide (job.status = some "DONE") := by
  cases h : job.status with
  | none => simp [renderJobRow, h]
  | some v => by_cases hv : v = "DONE" <;> simp [renderJobRow, h, hv]

/-- C8: a successful PDF-link resolution stores the link under the `dl_<id>`
key; resolving again with the same backend URL leaves the cache unchanged;
resolving with a different successful URL overwrites it; and a row whose job
id matches a cached key renders the cached link. -/
theorem C8_download_link_cache (job_id url url2 : String) (s : SessionState)
    (h : url ≠ "") (h2 : url2 ≠ "") :
    dictGet ((pdfButtonHandler job_id (Except.ok (some url)) s).1.dl_links)
        ("dl_" ++ job_id) = some url ∧
    ((pdfButtonHandler job_id (Except.ok (some url))
        (pdfButtonHandler job_id (Except.ok (some url)) s).1).1.dl_links
      = (pdfButtonHandler job_id (Except.ok (some url)) s).1.dl_links) ∧
    dictGet ((pdfButtonHandler job_id (Except.ok (some url2))
        (pdfButtonHandler job_id (Except.ok (some url)) s).1).1.dl_links)
        ("dl_" ++ job_id) = some url2 ∧
    (∀ job : Job, pyStr job.id = job_id →
      (renderJobRow job
          ((pdfButtonHandler job_id (Except.ok (some url)) s).1.dl_links)).downloadLink
        = some url) := by
  refine ⟨?_, ?_, ?_, ?_⟩
  · simp [pdfButtonHandler, h, dictGet_dictSet_self]
  · simp [pdfButtonHandler, h, dictSet_dictSet_self]
  · simp [pdfButtonHandler, h, h2, dictGet_dictSet_self]
  · intro job hid
    simp [renderJobRow, pdfButtonHandler, h, hid, dictGet_dictSet_self]

/-- C8 witness: the cache theorem applied at a concrete job id, URL and
fresh session. -/
theorem C8_download_link_cache_witness :
    dictGet ((pdfButtonHandler "j1" (Except.ok (some "https://pdf/a"))
        initialState).1.dl_links) ("dl_" ++ "j1") = some "https://pdf/a" :=
  (C8_download_link_cache "j1" "https://pdf/a" "https://pdf/b" initialState
    (by decide) (by decide)).1

/-- C9: a status value outside the known enum renders as the raw status
string itself, and a missing status renders the default string UNKNOWN; the
row render is total, so no status value can crash it. -/
theorem C9_unknown_status_display (job : Job) (dl : List (String × String)) :
    (∀ v : String, job.status = some v → v ∉ knownStatuses →
      (renderJobRow job dl).statusCell = v) ∧
    (job.status = none → (renderJobRow job dl).statusCell = "UNKNOWN") := by
  constructor
  · intro v hv hnot
    simp only [knownStatuses, List.mem_cons, List.mem_singleton] at hnot
    push_neg at hnot
    obtain ⟨h1, h2, h3, h4, h5⟩ := hnot
    simp [renderJobRow, hv, h2, h3, h4]
  · intro hv
    simp [renderJobRow, hv]

/-- C9 witness: the theorem applied at a concrete job carrying the
unrecognized status ARCHIVED. -/
theorem C9_unknown_status_display_witness :
    (renderJobRow ⟨some "j9", some "f.png", some "en", some "ARCHIVED", some "2024"⟩
        []).statusCell = "ARCHIVED" :=
  (C9_unknown_status_display
    ⟨some "j9", some "f.png", some "en", some "ARCHIVED", some "2024"⟩ []).1
    "ARCHIVED" rfl (by decide)

/-- C10: a registry refresh, successful or failing, never changes the
selected job details or the cached download links, and a link cached before
the refresh is still rendered by the row afterwards. -/
theorem C10_refresh_frame (resp : Except String (Option (List Job)))
    (s : SessionState) :
    ((get_jobs_from_backend resp s).1.selected_job_details
      = s.selected_job_details) ∧
    ((get_jobs_from_backend resp s).1.dl_links = s.dl_links) ∧
    (∀ (job : Job) (u : String),
      dictGet s.dl_links ("dl_" ++ pyStr job.id) = some u →
      (renderJobRow job (get_jobs_from_backend resp s).1.dl_links).downloadLink
        = some u) := by
  cases resp <;>
    exact ⟨rfl, rfl, fun job u hu => by simpa [renderJobRow] using hu⟩

/-- C10 witness: a link cached for job j1 survives a successful refresh and
is rendered on the row of job j1. -/
theorem C10_refresh_frame_witness :
    (renderJobRow ⟨some "j1", none, none, some "PROCESSING", none⟩
        (get_jobs_from_backend (Except.ok (some []))
          { jobs := [], selected_job_details := none,
            dl_links := [("dl_j1", "https://pdf/c")] }).1.dl_links).downloadLink
      = some "https://pdf/c" :=
  (C10_refresh_frame (Except.ok (some []))
    { jobs := [], selected_job_details := none,
      dl_links := [("dl_j1", "https://pdf/c")] }).2.2
    ⟨some "j1", none, none, some "PROCESSING", none⟩ "https://pdf/c" (by decide)
